import Mathlib

/-!
Shallow embedding of the CourseraMCP server (`src/coursera-server.js`,
`src/env.js`, the stdio entry point and the streamable-HTTP entry point)
together with proofs of the behavioural claims about it.

JavaScript idioms are modelled explicitly: `process.env` values are
`Option String` (a variable may be unset), JS truthiness of strings is
`jsTruthy` (`undefined` and `""` are falsy), template-literal coercion of
`undefined` is the string `"undefined"`, and `String.prototype.includes`
is `jsIncludes`.
-/

namespace CourseraMCP

/-- JS truthiness of a possibly-undefined string: `undefined` and `""` are falsy. -/
def jsTruthy : Option String → Bool
  | none => false
  | some s => s ≠ ""

/-- JS template-literal coercion: `undefined` prints as `"undefined"`. -/
def jsUndef : Option String → String
  | none => "undefined"
  | some s => s

/-- `a || b` on a possibly-undefined string and a string default. -/
def jsOrElse (a : Option String) (b : String) : String :=
  if jsTruthy a then a.getD "" else b

/-- The character class `\s` of JS regular expressions and `String.prototype.trim`. -/
def jsWhitespace (c : Char) : Bool :=
  c = ' ' ∨ c = '\t' ∨ c = '\n' ∨ c = '\x0b' ∨ c = '\x0c' ∨ c = '\r' ∨
  c = '\u00A0' ∨ c = '\u1680' ∨ ('\u2000' ≤ c ∧ c ≤ '\u200A') ∨
  c = '\u2028' ∨ c = '\u2029' ∨ c = '\u202F' ∨ c = '\u205F' ∨
  c = '\u3000' ∨ c = '\uFEFF'

/-- `String.prototype.trim`: strip leading and trailing `\s` characters. -/
def jsTrim (s : String) : String :=
  String.mk (((s.data.dropWhile jsWhitespace).reverse.dropWhile jsWhitespace).reverse)

/-- Bool-valued prefix test on char lists (used by the substring test). -/
def isPrefixList : List Char → List Char → Bool
  | [], _ => true
  | _ :: _, [] => false
  | a :: as, b :: bs => a = b && isPrefixList as bs

/-- Does `sub` occur somewhere in `s` (as lists of characters)? -/
def hasSubstringFrom (sub : List Char) : List Char → Bool
  | [] => sub.isEmpty
  | c :: rest => isPrefixList sub (c :: rest) || hasSubstringFrom sub rest

/-- `s.includes(sub)` of JS. -/
def jsIncludes (s sub : String) : Bool :=
  hasSubstringFrom sub.data s.data

/-! ## Environment model

`process.env` is an association list from variable names to string values;
assignment replaces the value of an existing key and appends a new key. -/

abbrev EnvVars := List (String × String)

/-- `process.env[key]` (`none` when the variable is unset). -/
def envGet (vars : EnvVars) (key : String) : Option String :=
  (vars.find? (fun e => e.1 = key)).map (·.2)

/-- `process.env[key] = value`. -/
def envSet (vars : EnvVars) (key value : String) : EnvVars :=
  match vars with
  | [] => [(key, value)]
  | e :: rest => if e.1 = key then (key, value) :: rest else e :: envSet rest key value

/-! ## `src/env.js` -/

/-- The quote-stripping step of `loadEnv`
(`if ((value.startsWith('"') && value.endsWith('"')) || ...) value = value.slice(1, -1)`). -/
def stripMatchingQuotes (v : String) : String :=
  if (v.data.head? = some '"' ∧ v.data.getLast? = some '"') ∨
     (v.data.head? = some '\x27' ∧ v.data.getLast? = some '\x27') then
    String.mk ((v.data.drop 1).dropLast)
  else v

/-- Parse one line of an env file the way `loadEnv` does: trim, skip blank
lines and `#` comments, split at the first `=`, trim key and value, strip one
surrounding pair of matching quotes from the value. -/
def parseEnvLine (line : String) : Option (String × String) :=
  let trimmed := jsTrim line
  if trimmed = "" || isPrefixList "#".data trimmed.data then none
  else
    match trimmed.data.findIdx? (fun c => c = '=') with
    | none => none
    | some idx =>
      let key := jsTrim (String.mk (trimmed.data.take idx))
      let value := stripMatchingQuotes (jsTrim (String.mk (trimmed.data.drop (idx + 1))))
      some (key, value)

/-- One parsed line applied to `process.env`: the assignment happens only when
`!process.env[key]`, i.e. when the key is unset **or set to the empty string**. -/
def applyEnvLine (vars : EnvVars) (line : String) : EnvVars :=
  match parseEnvLine line with
  | none => vars
  | some (key, value) =>
    if jsTruthy (envGet vars key) then vars else envSet vars key value

/-- `content.split("\n")` on the character level. -/
def splitLines : List Char → List (List Char)
  | [] => [[]]
  | c :: rest =>
    let r := splitLines rest
    if c = '\n' then [] :: r
    else
      match r with
      | [] => [[c]]
      | l :: ls => (c :: l) :: ls

/-- Load one env file (given as its text content; `none` models
`!existsSync(file)`): split on newlines and apply each line in order. -/
def applyEnvFile (vars : EnvVars) (file : Option String) : EnvVars :=
  match file with
  | none => vars
  | some content => ((splitLines content.data).map String.mk).foldl applyEnvLine vars

/-- Process-level state seen by `loadEnv`: `process.env` plus the module-level
`envLoaded` flag. -/
structure ProcEnv where
  vars : EnvVars
  envLoaded : Bool
  deriving DecidableEq, Repr

/-- `loadEnv()`: a no-op when `envLoaded` is already set; otherwise loads
`.env.local` then `.env` (the two file contents are the argument, in that
order). -/
def loadEnv (files : List (Option String)) (st : ProcEnv) : ProcEnv :=
  if st.envLoaded then st
  else { vars := files.foldl applyEnvFile st.vars, envLoaded := true }

/-! ## `getCourseraConfig` (`src/coursera-server.js` lines 188-210) -/

/-- `extractCauth`: first match of `/CAUTH=([^;]+)/` in the cookie string. -/
def cauthScan : List Char → Option String
  | [] => none
  | c :: rest =>
    if isPrefixList "CAUTH=".data (c :: rest) then
      let v := ((c :: rest).drop 6).takeWhile (fun ch => ch ≠ ';')
      if v.isEmpty then cauthScan rest else some (String.mk v)
    else cauthScan rest

/-- `extractCauth(cookies)`: `null` on a falsy argument, else the first
`CAUTH=<value>` group. -/
def extractCauth (cookies : Option String) : Option String :=
  if jsTruthy cookies then cauthScan (cookies.getD "").data else none

/-- The value returned by `getCourseraConfig`. -/
structure CourseraConfig where
  cookies : String
  cauth : Option String
  deriving DecidableEq, Repr

/-- `getCourseraConfig()`: throws when both `COURSERA_COOKIES` and
`COURSERA_CAUTH` are falsy; otherwise returns the cookie string
(`cookies || "CAUTH=" + cauth`) and the auth token
(`cauth || extractCauth(cookies)`). -/
def getCourseraConfig (cookies cauth : Option String) : Except String CourseraConfig :=
  if ¬ jsTruthy cookies ∧ ¬ jsTruthy cauth then
    .error ("Missing COURSERA_COOKIES or COURSERA_CAUTH env var. " ++
      "You need to extract your session cookies from your browser.")
  else
    .ok { cookies := jsOrElse cookies ("CAUTH=" ++ jsUndef cauth)
          cauth := if jsTruthy cauth then cauth else extractCauth cookies }

/-- Startup check of the HTTP entry point: `try { getCourseraConfig() } catch
{ ...; process.exit(1) }`. Returns the exit code when the process exits before
serving, `none` when startup proceeds. -/
def startupExitCode (cookies cauth : Option String) : Option Nat :=
  match getCourseraConfig cookies cauth with
  | .error _ => some 1
  | .ok _ => none

/-! ## Session table of the streamable-HTTP entry point

`const sessions = new Map()` maps a session id to `{ transport, server }`.
The entry records whether the stored transport is a
`StreamableHTTPServerTransport` (the `instanceof` check of
`getStreamableTransport`) and whether its `close()` calls fail, so that the
shutdown path can be proved failure-tolerant. -/

structure SessionEntry where
  transportStreamable : Bool
  transportCloseFails : Bool
  serverCloseFails : Bool
  deriving DecidableEq, Repr

abbrev SessionTable := List (String × SessionEntry)

/-- `sessions.get(sid)`. -/
def tblGet (t : SessionTable) (sid : String) : Option SessionEntry :=
  (t.find? (fun e => e.1 = sid)).map (·.2)

/-- `sessions.delete(sid)`. -/
def tblDelete (t : SessionTable) (sid : String) : SessionTable :=
  t.filter (fun e => e.1 ≠ sid)

/-- `sessions.set(sid, { transport, server })`. -/
def tblSet (t : SessionTable) (sid : String) (s : SessionEntry) : SessionTable :=
  match t with
  | [] => [(sid, s)]
  | e :: rest => if e.1 = sid then (sid, s) :: rest else e :: tblSet rest sid s

/-- Observable close attempts during session teardown; the `Bool` records
whether the underlying `close()` threw (the code swallows the exception
either way). -/
inductive CloseEvent where
  | transportClose (sid : String) (failed : Bool)
  | serverClose (sid : String) (failed : Bool)
  deriving DecidableEq, Repr

/-- `cleanupSession(sid)`: read the entry, delete it from the map, then
`try { await session.server.close() } catch { /* ignore */ }`. -/
def cleanupSession (t : SessionTable) (sid : String) : SessionTable × List CloseEvent :=
  match tblGet t sid with
  | some s => (tblDelete t sid, [.serverClose sid s.serverCloseFails])
  | none => (tblDelete t sid, [])

/-- `shutdownSession(sid)`: `try { await session.transport.close() } catch {}`
followed by `cleanupSession(sid)`. Total: teardown failures are swallowed. -/
def shutdownSession (t : SessionTable) (sid : String) : SessionTable × List CloseEvent :=
  let first :=
    match tblGet t sid with
    | some s => [CloseEvent.transportClose sid s.transportCloseFails]
    | none => []
  let rest := cleanupSession t sid
  (rest.1, first ++ rest.2)

/-- One iteration of the `SIGINT` loop: `await shutdownSession(sessionId)`,
accumulating the close events. -/
def shutdownFold (acc : SessionTable × List CloseEvent) (sid : String) :
    SessionTable × List CloseEvent :=
  let step := shutdownSession acc.1 sid
  (step.1, acc.2 ++ step.2)

/-- The `SIGINT` handler: snapshot `[...sessions.keys()]`, await
`shutdownSession` for each in order, then exit with code 0. -/
def sigintShutdown (t : SessionTable) : SessionTable × List CloseEvent × Nat :=
  let folded := (t.map (·.1)).foldl shutdownFold (t, ([] : List CloseEvent))
  (folded.1, folded.2, 0)

/-! ## `getStreamableTransport` (HTTP entry point lines 123-173) -/

/-- An inbound HTTP request as the entry point sees it. -/
structure HttpRequest where
  method : String
  path : String
  authorization : Option String
  xApiKey : Option String
  sessionIdHeader : Option String
  /-- Result of `hasInitializeRequest(req.body)`. -/
  bodyHasInit : Bool
  deriving DecidableEq, Repr

/-- Outcome of `getStreamableTransport`: a JSON-RPC error written to the
response (returning `null`), routing to an existing session's transport, or
creation of a fresh server/transport pair. -/
inductive DispatchOutcome where
  | rpcError (status : Nat) (code : Int) (msg : String)
  | useExisting (sid : String)
  | createSession
  deriving DecidableEq, Repr

/-- `getStreamableTransport(req, res)`. Session ids are checked for JS
truthiness (`if (sessionId)`); an unknown id, a non-streamable stored
transport, or a sessionless request that is not a POSTed initialize request
all answer with a 400 JSON-RPC error and leave the table untouched. -/
def getStreamableTransport (t : SessionTable) (req : HttpRequest) :
    DispatchOutcome × SessionTable :=
  if jsTruthy req.sessionIdHeader then
    match tblGet t (req.sessionIdHeader.getD "") with
    | none =>
      (.rpcError 400 (-32000) "Bad Request: No valid session ID provided", t)
    | some s =>
      if s.transportStreamable then
        (.useExisting (req.sessionIdHeader.getD ""), t)
      else
        (.rpcError 400 (-32000)
          "Bad Request: Session exists but uses a different transport protocol", t)
  else if req.method ≠ "POST" ∨ ¬ req.bodyHasInit then
    (.rpcError 400 (-32000) "Bad Request: No valid session ID provided", t)
  else
    (.createSession, t)

/-! ## Express pipeline: API-key middleware and routes -/

/-- The group of `/^Bearer\s+(.+)$/i` applied to the authorization header.
Greedy `\s+` then `(.+)$` with `.` excluding line terminators. -/
def bearerMatch (s : String) : Option String :=
  let cs := s.data
  if (cs.take 6).map Char.toLower = "bearer".data then
    let rest := cs.drop 6
    let w := (rest.takeWhile jsWhitespace).length
    if w = 0 then none
    else
      let p := min w (rest.length - 1)
      if p = 0 then none
      else
        let grp := rest.drop p
        if grp.any (fun c => c = '\n' ∨ c = '\r' ∨ c = '\u2028' ∨ c = '\u2029')
        then none
        else some (String.mk grp)
  else none

/-- `extractApiKey(req)`: bearer token from the authorization header (falling
back to the whole header), else the `x-api-key` header, trimmed; `null` when
neither header is a string. -/
def extractApiKey (req : HttpRequest) : Option String :=
  match req.authorization with
  | some a => some (jsTrim ((bearerMatch a).getD a))
  | none =>
    match req.xApiKey with
    | some k => some (jsTrim k)
    | none => none

/-- What the Express app writes back for one request. -/
inductive HttpResponse where
  | rpcError (status : Nat) (code : Int) (msg : String)
  /-- `{ status: "ok", service: "coursera-mcp" }` from `/health`. -/
  | healthOk
  | mcpDispatch (out : DispatchOutcome)
  | notFound
  deriving DecidableEq, Repr

/-- The routes registered after the middleware: `app.all("/mcp", ...)` and
`app.get("/health", ...)`. -/
def routeRequest (t : SessionTable) (req : HttpRequest) : HttpResponse × SessionTable :=
  if req.path = "/mcp" then
    match getStreamableTransport t req with
    | (.rpcError st c m, t2) => (.rpcError st c m, t2)
    | (out, t2) => (.mcpDispatch out, t2)
  else if req.path = "/health" ∧ req.method = "GET" then
    (.healthOk, t)
  else
    (.notFound, t)

/-- The whole Express pipeline. The API-key middleware is installed with
`app.use` (no path) before both routes whenever `MCP_API_KEY` is truthy, so it
runs for every request, `/health` included. -/
def appHandle (apiKey : Option String) (t : SessionTable) (req : HttpRequest) :
    HttpResponse × SessionTable :=
  if jsTruthy apiKey then
    let provided := extractApiKey req
    if ¬ jsTruthy provided ∨ provided ≠ apiKey then
      (.rpcError 401 (-32000) "Unauthorized", t)
    else routeRequest t req
  else routeRequest t req

/-! ## Per-session browser state and tool handlers (`src/coursera-server.js`)

`createCourseraServer` closes over `let browserPromise = null`; one instance
is created per session. Handles (browser, pages) are numbered by a fresh-id
counter, and browser/page operations are recorded as events so that resource
claims (page always closed, browser closed once at teardown) are statable. -/

structure SessState where
  /-- The `browserPromise` closure variable: the launched browser's handle. -/
  browserPromise : Option Nat
  /-- Fresh-handle counter for browsers and pages. -/
  nextId : Nat
  deriving DecidableEq, Repr

inductive BrowserEvent where
  | launch (browser : Nat)
  | newPage (browser page : Nat)
  | goto (page : Nat) (url : String)
  | closePage (page : Nat)
  | closeBrowser (browser : Nat)
  deriving DecidableEq, Repr

/-- `getBrowser()`: launch puppeteer only when `browserPromise` is unset,
then always answer the stored promise. -/
def getBrowser (st : SessState) : Nat × SessState × List BrowserEvent :=
  match st.browserPromise with
  | some b => (b, st, [])
  | none =>
    (st.nextId,
     { browserPromise := some st.nextId, nextId := st.nextId + 1 },
     [.launch st.nextId])

/-- `createAuthenticatedPage()`: `getBrowser()` then `browser.newPage()` (the
cookie/user-agent/viewport setup touches only the new page). -/
def createAuthenticatedPage (st : SessState) : Nat × SessState × List BrowserEvent :=
  let b := getBrowser st
  (b.2.1.nextId,
   { b.2.1 with nextId := b.2.1.nextId + 1 },
   b.2.2 ++ [.newPage b.1 b.2.1.nextId])

/-- What the navigation/extraction body of `fetchPageContent` produces: the
title, final URL, extracted content, inner HTML and matched selector, or the
message of the exception `page.goto`/`page.evaluate` threw. The upstream page
is opaque, so the body is a parameter (`PageNav`) of the handler model. -/
structure PageData where
  title : String
  url : String
  content : String
  html : String
  foundSelector : String
  deriving DecidableEq, Repr

abbrev PageNav := String → Except String PageData

/-- `fetchPageContent(url)`: open an authenticated page, run the navigation
and extraction body, and close the page in a `finally` — so the page-close
event is emitted on the success path and on the failure path alike. -/
def fetchPageContent (nav : PageNav) (st : SessState) (url : String) :
    Except String PageData × SessState × List BrowserEvent :=
  let p := createAuthenticatedPage st
  (nav url, p.2.1, p.2.2 ++ [.goto p.1 url, .closePage p.1])

/-- `server.onclose`: `if (browserPromise) { (await browserPromise).close() }`. -/
def serverOnClose (st : SessState) : SessState × List BrowserEvent :=
  match st.browserPromise with
  | some b => (st, [.closeBrowser b])
  | none => (st, [])

/-! ## `getPageContent` (lines 531-539) -/

/-- `getPageContent({ url })`: reject non-Coursera URLs by the substring test
`url.includes('coursera.org')` before any navigation, else fetch the page. -/
def getPageContent (nav : PageNav) (st : SessState) (url : String) :
    Except String PageData × SessState × List BrowserEvent :=
  if ¬ jsIncludes url "coursera.org" then
    (.error "URL must be a Coursera URL", st, [])
  else
    fetchPageContent nav st url

/-! ## `getAssignment` (lines 655-682) -/

/-- The result object `{ course_slug, item_id, ...result }`. -/
structure AssignmentResult where
  course_slug : String
  item_id : String
  page : PageData
  deriving DecidableEq, Repr

/-- The candidate URL list of `getAssignment`, in source order:
quiz, exam, assignment. `slug` is `item_name || 'quiz'`. -/
def getAssignmentUrls (course_slug item_id : String) (item_name : Option String) :
    List String :=
  let slug := jsOrElse item_name "quiz"
  [ "https://www.coursera.org/learn/" ++ course_slug ++ "/quiz/" ++ item_id ++ "/" ++ slug,
    "https://www.coursera.org/learn/" ++ course_slug ++ "/exam/" ++ item_id ++ "/" ++ slug,
    "https://www.coursera.org/learn/" ++ course_slug ++ "/assignment/" ++ item_id ++ "/" ++ slug ]

/-- The `for (const url of urls)` loop of `getAssignment`: a candidate that
throws is skipped (`catch { continue }`), a fetched result is returned only
when `result.content && result.content.length > 100`. -/
def tryAssignmentUrls (fetch : PageNav) (course_slug item_id : String) :
    List String → Except String AssignmentResult
  | [] =>
    .error ("Could not find assignment " ++ item_id ++ " in course " ++ course_slug)
  | url :: rest =>
    match fetch url with
    | .error _ => tryAssignmentUrls fetch course_slug item_id rest
    | .ok r =>
      if r.content ≠ "" ∧ r.content.length > 100 then
        .ok { course_slug := course_slug, item_id := item_id, page := r }
      else
        tryAssignmentUrls fetch course_slug item_id rest

/-- `getAssignment({ course_slug, item_id, item_name })` with the page fetch
abstracted as `fetch`. -/
def getAssignment (fetch : PageNav) (course_slug item_id : String)
    (item_name : Option String) : Except String AssignmentResult :=
  tryAssignmentUrls fetch course_slug item_id
    (getAssignmentUrls course_slug item_id item_name)

/-- Written from the claim, for comparison with `getAssignment`: probe the
quiz URL, then the exam URL, then the assignment URL, and take the first
candidate whose fetched content is longer than 100 characters, skipping
candidates that fail. -/
def firstLongContent (fetch : PageNav) : List String → Option PageData
  | [] => none
  | url :: rest =>
    match fetch url with
    | .ok r => if r.content.length > 100 then some r else firstLongContent fetch rest
    | .error _ => firstLongContent fetch rest

/-! ## `getCourse` (lines 438-451) and the call-tool dispatcher (lines 773-781) -/

/-- `encodeURIComponent`: unreserved characters pass through, everything else
is percent-encoded as uppercase-hex UTF-8 bytes. -/
def uriUnreserved (c : Char) : Bool :=
  ('A' ≤ c ∧ c ≤ 'Z') ∨ ('a' ≤ c ∧ c ≤ 'z') ∨ ('0' ≤ c ∧ c ≤ '9') ∨
  c = '-' ∨ c = '_' ∨ c = '.' ∨ c = '!' ∨ c = '~' ∨ c = '*' ∨
  c = '\x27' ∨ c = '(' ∨ c = ')'

def hexDigit (n : Nat) : Char :=
  if n < 10 then Char.ofNat ('0'.toNat + n) else Char.ofNat ('A'.toNat + (n - 10))

def utf8Bytes (c : Char) : List Nat :=
  let n := c.toNat
  if n < 0x80 then [n]
  else if n < 0x800 then [0xC0 + n / 64, 0x80 + n % 64]
  else if n < 0x10000 then [0xE0 + n / 4096, 0x80 + (n / 64) % 64, 0x80 + n % 64]
  else [0xF0 + n / 262144, 0x80 + (n / 4096) % 64, 0x80 + (n / 64) % 64, 0x80 + n % 64]

def encodeURIComponent (s : String) : String :=
  String.join (s.data.map (fun c =>
    if uriUnreserved c then String.mk [c]
    else String.join ((utf8Bytes c).map (fun b =>
      String.mk ['%', hexDigit (b / 16), hexDigit (b % 16)]))))

/-- A tool-call argument object: JSON fields with string values (the only
value type the modelled handlers read). A missing field reads as `undefined`. -/
abbrev ToolArgs := List (String × String)

def argGet (args : ToolArgs) (key : String) : Option String :=
  (args.find? (fun e => e.1 = key)).map (·.2)

/-- The response shape of `onDemandCourses.v1` as `getCourse` consumes it:
`response?.elements` is a list of opaque course documents. -/
structure ApiResp where
  elements : List String
  deriving DecidableEq, Repr

/-- The upstream `courseraFetch`: an error models a thrown
`Coursera API error <status>` (or network failure). -/
abbrev FetchOracle := String → Except String ApiResp

/-- Observable upstream side effects of a handler. -/
inductive UpstreamEffect where
  | httpFetch (url : String)
  deriving DecidableEq, Repr

/-- The URL `getCourse` builds; destructuring a missing `course_slug` gives
`undefined`, which the template literal hands to `encodeURIComponent` as the
string `"undefined"`. -/
def getCourseUrl (course_slug : Option String) : String :=
  "https://www.coursera.org/api/onDemandCourses.v1?q=slug&slug=" ++
  encodeURIComponent (jsUndef course_slug) ++
  "&fields=id,name,slug,description,primaryLanguages,instructorIds,partnerIds,workload,photoUrl"

/-- `getCourse(args)`: always issues the `courseraFetch` on the built URL;
throws `Course not found` when `response?.elements?.[0]` is absent. -/
def getCourse (oracle : FetchOracle) (args : ToolArgs) :
    Except String String × List UpstreamEffect :=
  let course_slug := argGet args "course_slug"
  let url := getCourseUrl course_slug
  match oracle url with
  | .error e => (.error e, [.httpFetch url])
  | .ok resp =>
    match resp.elements.head? with
    | none => (.error ("Course not found: " ++ jsUndef course_slug), [.httpFetch url])
    | some c => (.ok c, [.httpFetch url])

/-- The names registered in `toolHandlers` (lines 749-760). -/
def toolHandlerNames : List String :=
  ["list_enrollments", "get_course", "list_course_materials", "get_page_content",
   "get_reading", "get_lecture", "list_assignments", "get_assignment",
   "get_progress", "list_degree_programs"]

/-- The `CallToolRequestSchema` handler (lines 773-781) specialised to
`name = "get_course"`: the lookup `toolHandlers[name]` succeeds, so the body
runs `handler(args || {})` — nothing between the lookup and the handler call
validates `args` against the tool's declared input schema. -/
def callToolGetCourse (oracle : FetchOracle) (args : Option ToolArgs) :
    Except String String × List UpstreamEffect :=
  getCourse oracle (args.getD [])

/-- The `CallToolRequestSchema` handler on an unregistered name: throws
`Unknown tool` before any handler runs. -/
def callToolUnknown (name : String) : Except String String × List UpstreamEffect :=
  (.error ("Unknown tool: " ++ name), [])

/-- The declared input schema of `get_course` (lines 36-47), as a validator:
`course_slug` is required (a string — all modelled argument values are
strings) and `additionalProperties: false` admits no other key. -/
def getCourseSchemaValid (args : ToolArgs) : Bool :=
  (argGet args "course_slug").isSome ∧ args.all (fun e => e.1 = "course_slug")

/-! ## Theorems -/

theorem tryAssignmentUrls_eq_firstLongContent (fetch : PageNav) (cs id : String)
    (urls : List String) :
    tryAssignmentUrls fetch cs id urls =
      match firstLongContent fetch urls with
      | some r => .ok ⟨cs, id, r⟩
      | none => .error ("Could not find assignment " ++ id ++ " in course " ++ cs) := by
  induction urls with
  | nil => rfl
  | cons u rest ih =>
    simp only [tryAssignmentUrls, firstLongContent]
    cases hf : fetch u with
    | error e => exact ih
    | ok r =>
      by_cases h : r.content.length > 100
      · have hne : r.content ≠ "" := by
          intro he
          rw [he] at h
          simp at h
        simp [h, hne]
      · simp [h, ih]

/-- C9: `get_assignment` probes its candidate URLs in the fixed order quiz,
exam, assignment, returns the first fetched result whose content is longer
than 100 characters (failing candidates are skipped), and fails with
`Could not find assignment` when no candidate yields such content. -/
theorem getAssignment_first_long_content (fetch : PageNav) (course_slug item_id : String)
    (item_name : Option String) :
    getAssignment fetch course_slug item_id item_name =
      match firstLongContent fetch
        [ "https://www.coursera.org/learn/" ++ course_slug ++ "/quiz/" ++ item_id ++ "/" ++
            jsOrElse item_name "quiz",
          "https://www.coursera.org/learn/" ++ course_slug ++ "/exam/" ++ item_id ++ "/" ++
            jsOrElse item_name "quiz",
          "https://www.coursera.org/learn/" ++ course_slug ++ "/assignment/" ++ item_id ++ "/" ++
            jsOrElse item_name "quiz" ] with
      | some r => .ok ⟨course_slug, item_id, r⟩
      | none =>
        .error ("Could not find assignment " ++ item_id ++ " in course " ++ course_slug) := by
  rw [getAssignment, tryAssignmentUrls_eq_firstLongContent]
  rfl

/-- C10: `get_page_content` throws `URL must be a Coursera URL` with no
navigation exactly when the url lacks the substring `coursera.org`; any url
containing it anywhere (also in the path of a foreign host) is navigated to. -/
theorem getPageContent_coursera_check (nav : PageNav) (st : SessState) (url : String) :
    (getPageContent nav st url =
        (.error "URL must be a Coursera URL", st, ([] : List BrowserEvent)) ↔
      jsIncludes url "coursera.org" = false) ∧
    (jsIncludes url "coursera.org" = true →
      BrowserEvent.goto (createAuthenticatedPage st).1 url ∈ (getPageContent nav st url).2.2) := by
  constructor
  · constructor
    · intro h
      by_cases hc : jsIncludes url "coursera.org"
      · exfalso
        simp [getPageContent, hc, fetchPageContent, Prod.ext_iff] at h
      · simpa using hc
    · intro h
      simp [getPageContent, h]
  · intro h
    simp [getPageContent, h, fetchPageContent, List.mem_append]

theorem getPageContent_coursera_check_witness :
    jsIncludes "https://evil.example/path/coursera.org" "coursera.org" = true ∧
    BrowserEvent.goto 1 "https://evil.example/path/coursera.org" ∈
      (getPageContent (fun _ => .error "nav failed") ⟨none, 0⟩
        "https://evil.example/path/coursera.org").2.2 :=
  ⟨by decide,
   (getPageContent_coursera_check (fun _ => .error "nav failed") ⟨none, 0⟩
      "https://evil.example/path/coursera.org").2 (by decide)⟩

/-- C7: startup fails fast exactly when both credentials are absent, and when
one is present the returned cookie string is the supplied cookie string, or
`CAUTH=<token>` synthesized from the token alone. -/
theorem config_fail_fast (cookies cauth : Option String) :
    (jsTruthy cookies = false → jsTruthy cauth = false →
      startupExitCode cookies cauth = some 1 ∧ (1 : Nat) ≠ 0 ∧
      ∃ msg, getCourseraConfig cookies cauth = .error msg) ∧
    (jsTruthy cookies = true →
      ∃ ca, getCourseraConfig cookies cauth = .ok ⟨cookies.getD "", ca⟩ ∧
        startupExitCode cookies cauth = none) ∧
    (jsTruthy cookies = false → jsTruthy cauth = true →
      ∃ ca, getCourseraConfig cookies cauth = .ok ⟨"CAUTH=" ++ cauth.getD "", ca⟩ ∧
        startupExitCode cookies cauth = none) := by
  refine ⟨fun h1 h2 => ?_, fun h1 => ?_, fun h1 h2 => ?_⟩
  · simp [startupExitCode, getCourseraConfig, h1, h2]
  · refine ⟨if jsTruthy cauth then cauth else extractCauth cookies, ?_, ?_⟩ <;>
      simp [getCourseraConfig, startupExitCode, h1, jsOrElse]
  · have hu : jsUndef cauth = cauth.getD "" := by
      cases cauth with
      | none => simp [jsTruthy] at h2
      | some s => rfl
    refine ⟨cauth, ?_, ?_⟩ <;>
      simp [getCourseraConfig, startupExitCode, h1, h2, jsOrElse, hu]

theorem config_fail_fast_witness :
    (startupExitCode none none = some 1 ∧ (1 : Nat) ≠ 0 ∧
      ∃ msg, getCourseraConfig none none = .error msg) ∧
    (∃ ca, getCourseraConfig (some "CAUTH=abc; x=1") none = .ok ⟨"CAUTH=abc; x=1", ca⟩ ∧
      startupExitCode (some "CAUTH=abc; x=1") none = none) ∧
    (∃ ca, getCourseraConfig none (some "tok") = .ok ⟨"CAUTH=tok", ca⟩ ∧
      startupExitCode none (some "tok") = none) :=
  ⟨(config_fail_fast none none).1 (by decide) (by decide),
   (config_fail_fast (some "CAUTH=abc; x=1") none).2.1 (by decide),
   (config_fail_fast none (some "tok")).2.2 (by decide) (by decide)⟩

theorem envGet_cons (e : String × String) (rest : EnvVars) (key : String) :
    envGet (e :: rest) key = if e.1 = key then some e.2 else envGet rest key := by
  by_cases h : e.1 = key <;> simp [envGet, List.find?, h]

theorem envGet_envSet_self (vars : EnvVars) (k v : String) :
    envGet (envSet vars k v) k = some v := by
  induction vars with
  | nil => simp [envSet, envGet_cons]
  | cons e rest ih =>
    rw [envSet]
    by_cases h : e.1 = k
    · rw [if_pos h, envGet_cons]
      simp
    · rw [if_neg h, envGet_cons, if_neg h]
      exact ih

theorem envGet_envSet_ne (vars : EnvVars) (k k2 v : String) (h : k2 ≠ k) :
    envGet (envSet vars k v) k2 = envGet vars k2 := by
  induction vars with
  | nil =>
    rw [envSet, envGet_cons]
    simp [Ne.symm h]
  | cons e rest ih =>
    rw [envSet]
    by_cases he : e.1 = k
    · rw [if_pos he, envGet_cons, envGet_cons]
      have h1 : ¬ ((k, v).1 = k2) := fun hh => h hh.symm
      have h2 : ¬ (e.1 = k2) := fun hh => h (by rw [← hh, he])
      rw [if_neg h1, if_neg h2]
    · rw [if_neg he, envGet_cons, envGet_cons, ih]

theorem applyEnvLine_preserves (vars : EnvVars) (line key v : String)
    (hv : v ≠ "") (h : envGet vars key = some v) :
    envGet (applyEnvLine vars line) key = some v := by
  rw [applyEnvLine]
  cases hp : parseEnvLine line with
  | none => exact h
  | some kv =>
    by_cases hk : jsTruthy (envGet vars kv.1)
    · simpa [hk] using h
    · simp only [hk]
      by_cases hkey : kv.1 = key
      · rw [hkey, h] at hk
        simp [jsTruthy] at hk
        exact absurd hk hv
      · simp only [Bool.false_eq_true, if_false]
        rw [envGet_envSet_ne _ _ _ _ (fun he => hkey he.symm)]
        exact h

theorem foldl_applyEnvLine_preserves (lines : List String) (vars : EnvVars) (key v : String)
    (hv : v ≠ "") (h : envGet vars key = some v) :
    envGet (lines.foldl applyEnvLine vars) key = some v := by
  induction lines generalizing vars with
  | nil => exact h
  | cons l rest ih => exact ih _ (applyEnvLine_preserves _ _ _ _ hv h)

theorem applyEnvFile_preserves (vars : EnvVars) (file : Option String) (key v : String)
    (hv : v ≠ "") (h : envGet vars key = some v) :
    envGet (applyEnvFile vars file) key = some v := by
  cases file with
  | none => exact h
  | some content => exact foldl_applyEnvLine_preserves _ _ _ _ hv h

theorem foldl_applyEnvFile_preserves (files : List (Option String)) (vars : EnvVars)
    (key v : String) (hv : v ≠ "") (h : envGet vars key = some v) :
    envGet (files.foldl applyEnvFile vars) key = some v := by
  induction files generalizing vars with
  | nil => exact h
  | cons f rest ih => exact ih _ (applyEnvFile_preserves _ _ _ _ hv h)

/-- C8 counterexample: `.env.local` sets `FOO` to the empty string, yet the
later-loaded `.env` overrides it to `bar`, because the guard
`if (!process.env[key])` treats an empty value as absent. -/
theorem env_earlier_empty_value_overridden :
    envGet (applyEnvFile [] (some "FOO=")) "FOO" = some "" ∧
    envGet (loadEnv [some "FOO=", some "FOO=bar"] ⟨[], false⟩).vars "FOO" = some "bar" := by
  decide

/-- C8 (amended): env loading runs at most once per process; a key whose value
is **non-empty** (in the process environment or set by an earlier file) is
never overridden by a later file — a key set to the empty string counts as
absent and can be overwritten — and a value of length ≥ 2 whose first and
last characters are a matching pair of quotes has exactly that pair
stripped. -/
theorem loadEnv_once_no_nonempty_override :
    (∀ files files2 st, loadEnv files2 (loadEnv files st) = loadEnv files st) ∧
    (∀ files st key v, v ≠ "" → envGet st.vars key = some v →
      envGet (loadEnv files st).vars key = some v) ∧
    (∀ file vars key v, v ≠ "" → envGet vars key = some v →
      envGet (applyEnvFile vars file) key = some v) ∧
    (∀ q inner, q = '"' ∨ q = '\x27' →
      stripMatchingQuotes (String.mk (q :: (inner ++ [q]))) = String.mk inner) := by
  refine ⟨fun files files2 st => ?_, fun files st key v hv h => ?_,
    fun file vars key v hv h => applyEnvFile_preserves _ _ _ _ hv h,
    fun q inner hq => ?_⟩
  · by_cases h : st.envLoaded <;> simp [loadEnv, h]
  · rw [loadEnv]
    by_cases hl : st.envLoaded
    · simpa [hl] using h
    · simpa [hl] using foldl_applyEnvFile_preserves _ _ _ _ hv h
  · have hlast : (q :: (inner ++ [q])).getLast? = some q := by
      rw [show q :: (inner ++ [q]) = (q :: inner) ++ [q] from rfl]
      exact List.getLast?_concat _
    have hdrop : ((q :: (inner ++ [q])).drop 1).dropLast = inner := by
      simp
    rcases hq with h | h
    · subst h
      unfold stripMatchingQuotes
      rw [if_pos (Or.inl ⟨rfl, hlast⟩)]
      exact congrArg String.mk hdrop
    · subst h
      unfold stripMatchingQuotes
      rw [if_pos (Or.inr ⟨rfl, hlast⟩)]
      exact congrArg String.mk hdrop

theorem loadEnv_once_no_nonempty_override_witness :
    envGet (loadEnv [some "FOO=other", some "ignored"] ⟨[("FOO", "bar")], false⟩).vars "FOO" =
        some "bar" ∧
    envGet (applyEnvFile [("FOO", "bar")] (some "FOO=other")) "FOO" = some "bar" ∧
    stripMatchingQuotes (String.mk ('"' :: ("inner".data ++ ['"']))) = String.mk "inner".data :=
  ⟨loadEnv_once_no_nonempty_override.2.1 [some "FOO=other", some "ignored"]
      ⟨[("FOO", "bar")], false⟩ "FOO" "bar" (by decide) (by decide),
   loadEnv_once_no_nonempty_override.2.2.1 (some "FOO=other") [("FOO", "bar")] "FOO" "bar"
      (by decide) (by decide),
   loadEnv_once_no_nonempty_override.2.2.2 '"' "inner".data (Or.inl rfl)⟩

/-- C1 counterexample: a `get_course` call whose argument object `{}` fails
the tool's declared schema (missing required `course_slug`) is not answered
with a validation error — the handler runs and issues the upstream HTTP call,
with the JS-coerced string `undefined` as the slug. -/
theorem getCourse_missing_slug_calls_upstream :
    getCourseSchemaValid [] = false ∧
    (callToolGetCourse (fun _ => .ok ⟨[]⟩) (some [])).2 =
      [UpstreamEffect.httpFetch (getCourseUrl none)] ∧
    jsIncludes (getCourseUrl none) "slug=undefined" = true ∧
    (callToolGetCourse (fun _ => .ok ⟨[]⟩) (some [])).1 =
      .error "Course not found: undefined" := by
  refine ⟨rfl, rfl, by decide, rfl⟩

/-- C1 (amended): the call-tool dispatcher performs no argument-schema
validation — its only pre-handler rejection is the unknown-tool check — so
every `get_course` invocation, schema-valid or not, issues exactly one
upstream fetch on the URL built from the possibly-undefined `course_slug`. -/
theorem callTool_getCourse_always_fetches (oracle : FetchOracle) (args : Option ToolArgs)
    (name : String) :
    (callToolGetCourse oracle args).2 =
      [UpstreamEffect.httpFetch (getCourseUrl (argGet (args.getD []) "course_slug"))] ∧
    callToolUnknown name = (.error ("Unknown tool: " ++ name), []) := by
  refine ⟨?_, rfl⟩
  rw [callToolGetCourse, getCourse]
  cases oracle (getCourseUrl (argGet (args.getD []) "course_slug")) with
  | error e => rfl
  | ok resp => cases h : resp.elements.head? <;> simp [h]

/-- C2: on the HTTP binding, a request carrying an unknown session id, a
sessionless request that is not an initialize request, and a request whose
stored session uses a different transport than streamable HTTP are each
answered with a structured JSON-RPC error, and the session table is
unchanged. -/
theorem dispatcher_rejects_invalid_sessions (t : SessionTable) (req : HttpRequest) :
    (jsTruthy req.sessionIdHeader = true →
      tblGet t (req.sessionIdHeader.getD "") = none →
      getStreamableTransport t req =
        (.rpcError 400 (-32000) "Bad Request: No valid session ID provided", t)) ∧
    (jsTruthy req.sessionIdHeader = false → req.bodyHasInit = false →
      getStreamableTransport t req =
        (.rpcError 400 (-32000) "Bad Request: No valid session ID provided", t)) ∧
    (∀ s, jsTruthy req.sessionIdHeader = true →
      tblGet t (req.sessionIdHeader.getD "") = some s →
      s.transportStreamable = false →
      getStreamableTransport t req =
        (.rpcError 400 (-32000)
          "Bad Request: Session exists but uses a different transport protocol", t)) := by
  refine ⟨fun h1 h2 => ?_, fun h1 h2 => ?_, fun s h1 h2 h3 => ?_⟩
  · simp [getStreamableTransport, h1, h2]
  · simp [getStreamableTransport, h1, h2]
  · simp [getStreamableTransport, h1, h2, h3]

theorem dispatcher_rejects_invalid_sessions_witness :
    getStreamableTransport [] ⟨"POST", "/mcp", none, none, some "sid1", true⟩ =
      (.rpcError 400 (-32000) "Bad Request: No valid session ID provided", []) ∧
    getStreamableTransport [("a", ⟨true, false, false⟩)]
        ⟨"GET", "/mcp", none, none, none, false⟩ =
      (.rpcError 400 (-32000) "Bad Request: No valid session ID provided",
        [("a", ⟨true, false, false⟩)]) ∧
    getStreamableTransport [("b", ⟨false, false, false⟩)]
        ⟨"POST", "/mcp", none, none, some "b", true⟩ =
      (.rpcError 400 (-32000)
        "Bad Request: Session exists but uses a different transport protocol",
        [("b", ⟨false, false, false⟩)]) :=
  ⟨(dispatcher_rejects_invalid_sessions [] ⟨"POST", "/mcp", none, none, some "sid1", true⟩).1
      (by decide) (by decide),
   (dispatcher_rejects_invalid_sessions [("a", ⟨true, false, false⟩)]
      ⟨"GET", "/mcp", none, none, none, false⟩).2.1 (by decide) (by decide),
   (dispatcher_rejects_invalid_sessions [("b", ⟨false, false, false⟩)]
      ⟨"POST", "/mcp", none, none, some "b", true⟩).2.2 ⟨false, false, false⟩
      (by decide) (by decide) (by decide)⟩

/-- C3 counterexample: with an API key configured, a `GET /health` request
without credentials is answered 401 by the key middleware (installed with
`app.use` and no path, before either route), not with the status document —
the health endpoint is not exempt from authentication. -/
theorem health_gated_by_api_key :
    appHandle (some "secret-key") [] ⟨"GET", "/health", none, none, none, false⟩ =
      (.rpcError 401 (-32000) "Unauthorized", []) ∧
    (HttpResponse.rpcError 401 (-32000) "Unauthorized") ≠ .healthOk := by
  exact ⟨by decide, by decide⟩

/-- C3 (amended): the optional API-key check is applied by a pathless
middleware to **every** endpoint, `/health` included: with no key configured
`GET /health` returns the fixed status document unauthenticated; with a key
configured, any request without a matching key — protocol requests included —
gets a 401 JSON-RPC-shaped error and no session is created, and `/health`
answers only when the key matches. -/
theorem api_key_gate_behavior (apiKey : Option String) (t : SessionTable) (req : HttpRequest) :
    (jsTruthy apiKey = false → req.path = "/health" → req.method = "GET" →
      appHandle apiKey t req = (.healthOk, t)) ∧
    (jsTruthy apiKey = true →
      (jsTruthy (extractApiKey req) = false ∨ extractApiKey req ≠ apiKey) →
      appHandle apiKey t req = (.rpcError 401 (-32000) "Unauthorized", t)) ∧
    (jsTruthy apiKey = true → jsTruthy (extractApiKey req) = true →
      extractApiKey req = apiKey → req.path = "/health" → req.method = "GET" →
      appHandle apiKey t req = (.healthOk, t)) := by
  refine ⟨fun h1 hp hm => ?_, fun h1 h2 => ?_, fun h1 h2 h3 hp hm => ?_⟩
  · simp [appHandle, routeRequest, h1, hp, hm]
  · have hc : ¬ jsTruthy (extractApiKey req) = true ∨ extractApiKey req ≠ apiKey :=
      h2.imp (fun h => by simp [h]) id
    simp only [appHandle, h1, if_true]
    rw [if_pos hc]
  · have hc : ¬ (¬ jsTruthy (extractApiKey req) = true ∨ extractApiKey req ≠ apiKey) := by
      push_neg
      exact ⟨h2, h3⟩
    simp only [appHandle, h1, if_true]
    rw [if_neg hc]
    simp [routeRequest, hp, hm]

theorem api_key_gate_behavior_witness :
    appHandle none [] ⟨"GET", "/health", none, none, none, false⟩ = (.healthOk, []) ∧
    appHandle (some "k1") [("s", ⟨true, false, false⟩)]
        ⟨"POST", "/mcp", none, none, none, true⟩ =
      (.rpcError 401 (-32000) "Unauthorized", [("s", ⟨true, false, false⟩)]) ∧
    appHandle (some "k1") [] ⟨"GET", "/health", none, some "k1", none, false⟩ =
      (.healthOk, []) :=
  ⟨(api_key_gate_behavior none [] ⟨"GET", "/health", none, none, none, false⟩).1
      (by decide) rfl rfl,
   (api_key_gate_behavior (some "k1") [("s", ⟨true, false, false⟩)]
      ⟨"POST", "/mcp", none, none, none, true⟩).2.1 (by decide) (Or.inl (by decide)),
   (api_key_gate_behavior (some "k1") [] ⟨"GET", "/health", none, some "k1", none, false⟩).2.2
      (by decide) (by decide) (by decide) rfl rfl⟩

theorem tblGet_cons (e : String × SessionEntry) (rest : SessionTable) (sid : String) :
    tblGet (e :: rest) sid = if e.1 = sid then some e.2 else tblGet rest sid := by
  by_cases h : e.1 = sid <;> simp [tblGet, List.find?, h]

theorem tblDelete_cons (e : String × SessionEntry) (rest : SessionTable) (sid : String) :
    tblDelete (e :: rest) sid =
      if e.1 = sid then tblDelete rest sid else e :: tblDelete rest sid := by
  by_cases h : e.1 = sid <;> simp [tblDelete, List.filter_cons, h]

theorem tblGet_tblDelete_self (t : SessionTable) (sid : String) :
    tblGet (tblDelete t sid) sid = none := by
  induction t with
  | nil => rfl
  | cons e rest ih =>
    rw [tblDelete_cons]
    by_cases h : e.1 = sid
    · rw [if_pos h]
      exact ih
    · rw [if_neg h, tblGet_cons, if_neg h]
      exact ih

theorem tblGet_tblDelete_ne (t : SessionTable) (sid k : String) (h : k ≠ sid) :
    tblGet (tblDelete t sid) k = tblGet t k := by
  induction t with
  | nil => rfl
  | cons e rest ih =>
    rw [tblDelete_cons]
    by_cases he : e.1 = sid
    · have hek : ¬ e.1 = k := fun hh => h (hh.symm.trans he)
      rw [if_pos he, ih, tblGet_cons, if_neg hek]
    · rw [if_neg he, tblGet_cons, tblGet_cons]
      by_cases hek : e.1 = k
      · rw [if_pos hek, if_pos hek]
      · rw [if_neg hek, if_neg hek]
        exact ih

theorem tblGet_tblDelete_none (t : SessionTable) (sid k : String)
    (h : tblGet t k = none) : tblGet (tblDelete t sid) k = none := by
  by_cases hk : k = sid
  · subst hk
    exact tblGet_tblDelete_self t k
  · rw [tblGet_tblDelete_ne t sid k hk]
    exact h

theorem tblGet_mem_keys (t : SessionTable) (sid : String) (s : SessionEntry)
    (h : tblGet t sid = some s) : sid ∈ t.map (·.1) := by
  induction t with
  | nil => simp [tblGet, List.find?] at h
  | cons e rest ih =>
    rw [tblGet_cons] at h
    by_cases he : e.1 = sid
    · simp [he]
    · rw [if_neg he] at h
      simp [ih h]

theorem tblGet_eq_none_of_not_mem (t : SessionTable) (sid : String)
    (h : sid ∉ t.map (·.1)) : tblGet t sid = none := by
  cases hg : tblGet t sid with
  | none => rfl
  | some s => exact absurd (tblGet_mem_keys t sid s hg) h

theorem tblDelete_tblDelete (t : SessionTable) (sid : String) :
    tblDelete (tblDelete t sid) sid = tblDelete t sid := by
  induction t with
  | nil => rfl
  | cons e rest ih =>
    rw [tblDelete_cons]
    by_cases h : e.1 = sid
    · rw [if_pos h, ih]
    · rw [if_neg h, tblDelete_cons, if_neg h, ih]

theorem shutdownSession_fst (t : SessionTable) (sid : String) :
    (shutdownSession t sid).1 = tblDelete t sid := by
  cases h : tblGet t sid <;> simp [shutdownSession, cleanupSession, h]

/-- C4: after `shutdownSession` the torn-down id is unknown, so any request
carrying it is rejected with the unknown-session error; teardown is
idempotent (a second teardown of the same id performs no close and changes
nothing) and leaves every other session's entry untouched. -/
theorem teardown_unknown_and_idempotent (t : SessionTable) (sid : String) (req : HttpRequest) :
    (req.sessionIdHeader = some sid → sid ≠ "" →
      getStreamableTransport (shutdownSession t sid).1 req =
        (.rpcError 400 (-32000) "Bad Request: No valid session ID provided",
          (shutdownSession t sid).1)) ∧
    shutdownSession (shutdownSession t sid).1 sid = ((shutdownSession t sid).1, []) ∧
    (∀ k, k ≠ sid → tblGet (shutdownSession t sid).1 k = tblGet t k) := by
  refine ⟨fun h1 h2 => ?_, ?_, fun k hk => ?_⟩
  · have hg : tblGet (shutdownSession t sid).1 (req.sessionIdHeader.getD "") = none := by
      rw [h1, shutdownSession_fst]
      exact tblGet_tblDelete_self t sid
    have ht : jsTruthy req.sessionIdHeader = true := by
      rw [h1]
      simp [jsTruthy, h2]
    simp [getStreamableTransport, ht, hg]
  · have hd : (shutdownSession t sid).1 = tblDelete t sid := shutdownSession_fst t sid
    have hnone : tblGet (tblDelete t sid) sid = none := tblGet_tblDelete_self t sid
    rw [hd, shutdownSession, cleanupSession, hnone]
    simp [tblDelete_tblDelete]
  · rw [shutdownSession_fst]
    exact tblGet_tblDelete_ne t sid k hk

theorem teardown_unknown_and_idempotent_witness :
    getStreamableTransport
        (shutdownSession [("x", ⟨true, false, false⟩), ("y", ⟨true, true, true⟩)] "x").1
        ⟨"POST", "/mcp", none, none, some "x", true⟩ =
      (.rpcError 400 (-32000) "Bad Request: No valid session ID provided",
        (shutdownSession [("x", ⟨true, false, false⟩), ("y", ⟨true, true, true⟩)] "x").1) ∧
    shutdownSession
        (shutdownSession [("x", ⟨true, false, false⟩), ("y", ⟨true, true, true⟩)] "x").1 "x" =
      ((shutdownSession [("x", ⟨true, false, false⟩), ("y", ⟨true, true, true⟩)] "x").1, []) ∧
    tblGet (shutdownSession [("x", ⟨true, false, false⟩), ("y", ⟨true, true, true⟩)] "x").1 "y" =
      tblGet [("x", ⟨true, false, false⟩), ("y", ⟨true, true, true⟩)] "y" :=
  ⟨(teardown_unknown_and_idempotent [("x", ⟨true, false, false⟩), ("y", ⟨true, true, true⟩)]
      "x" ⟨"POST", "/mcp", none, none, some "x", true⟩).1 rfl (by decide),
   (teardown_unknown_and_idempotent [("x", ⟨true, false, false⟩), ("y", ⟨true, true, true⟩)]
      "x" ⟨"POST", "/mcp", none, none, some "x", true⟩).2.1,
   (teardown_unknown_and_idempotent [("x", ⟨true, false, false⟩), ("y", ⟨true, true, true⟩)]
      "x" ⟨"POST", "/mcp", none, none, some "x", true⟩).2.2 "y" (by decide)⟩

theorem foldl_shutdownFold_fst (ids : List String) :
    ∀ acc : SessionTable × List CloseEvent,
      (ids.foldl shutdownFold acc).1 = ids.foldl tblDelete acc.1 := by
  induction ids with
  | nil => intro acc; rfl
  | cons i rest ih =>
    intro acc
    rw [List.foldl_cons, List.foldl_cons, ih]
    simp [shutdownFold, shutdownSession_fst]

theorem foldl_tblDelete_none (ids : List String) :
    ∀ (t0 : SessionTable) (k : String), (k ∈ ids ∨ tblGet t0 k = none) →
      tblGet (ids.foldl tblDelete t0) k = none := by
  induction ids with
  | nil =>
    intro t0 k h
    rcases h with h | h
    · exact absurd h (List.not_mem_nil k)
    · exact h
  | cons i rest ih =>
    intro t0 k h
    rw [List.foldl_cons]
    rcases h with h | h
    · rcases List.mem_cons.mp h with h | h
      · subst h
        exact ih _ _ (Or.inr (tblGet_tblDelete_self t0 k))
      · exact ih _ _ (Or.inl h)
    · exact ih _ _ (Or.inr (tblGet_tblDelete_none t0 i k h))

theorem mem_foldl_shutdownFold_events (ids : List String) :
    ∀ (acc : SessionTable × List CloseEvent) (e : CloseEvent),
      e ∈ acc.2 → e ∈ (ids.foldl shutdownFold acc).2 := by
  induction ids with
  | nil => intro acc e h; exact h
  | cons i rest ih =>
    intro acc e h
    rw [List.foldl_cons]
    refine ih _ _ ?_
    simp only [shutdownFold, List.mem_append]
    exact Or.inl h

theorem shutdownFold_events_present (ids : List String) :
    ∀ (acc : SessionTable × List CloseEvent) (sid : String) (s : SessionEntry),
      sid ∈ ids → tblGet acc.1 sid = some s →
      CloseEvent.transportClose sid s.transportCloseFails ∈ (ids.foldl shutdownFold acc).2 ∧
      CloseEvent.serverClose sid s.serverCloseFails ∈ (ids.foldl shutdownFold acc).2 := by
  induction ids with
  | nil => intro acc sid s hmem _; exact absurd hmem (List.not_mem_nil sid)
  | cons i rest ih =>
    intro acc sid s hmem hget
    rw [List.foldl_cons]
    by_cases hi : sid = i
    · subst hi
      have h1 : CloseEvent.transportClose sid s.transportCloseFails ∈ (shutdownFold acc sid).2 := by
        simp [shutdownFold, shutdownSession, cleanupSession, hget]
      have h2 : CloseEvent.serverClose sid s.serverCloseFails ∈ (shutdownFold acc sid).2 := by
        simp [shutdownFold, shutdownSession, cleanupSession, hget]
      exact ⟨mem_foldl_shutdownFold_events rest _ _ h1,
             mem_foldl_shutdownFold_events rest _ _ h2⟩
    · rcases List.mem_cons.mp hmem with h | h
      · exact absurd h hi
      · refine ih _ _ _ h ?_
        have hfst : (shutdownFold acc i).1 = tblDelete acc.1 i := by
          simp [shutdownFold, shutdownSession_fst]
        rw [hfst, tblGet_tblDelete_ne _ _ _ hi]
        exact hget

/-- C5: on the shutdown signal every live session is torn down individually —
for every stored session both its transport close and its server close are
attempted (their failure flags are recorded but swallowed, so one failing
session cannot prevent another's teardown), the session table ends empty, and
the process exits with code 0. -/
theorem sigint_tears_down_all_sessions (t : SessionTable) :
    (sigintShutdown t).2.2 = 0 ∧
    (∀ sid, tblGet (sigintShutdown t).1 sid = none) ∧
    (∀ sid s, tblGet t sid = some s →
      CloseEvent.transportClose sid s.transportCloseFails ∈ (sigintShutdown t).2.1 ∧
      CloseEvent.serverClose sid s.serverCloseFails ∈ (sigintShutdown t).2.1) := by
  refine ⟨rfl, fun sid => ?_, fun sid s h => ?_⟩
  · show tblGet ((t.map (·.1)).foldl shutdownFold (t, [])).1 sid = none
    rw [foldl_shutdownFold_fst]
    apply foldl_tblDelete_none
    by_cases hmem : sid ∈ t.map (·.1)
    · exact Or.inl hmem
    · exact Or.inr (tblGet_eq_none_of_not_mem t sid hmem)
  · exact shutdownFold_events_present (t.map (·.1)) (t, []) sid s
      (tblGet_mem_keys t sid s h) h

theorem sigint_tears_down_all_sessions_witness :
    (sigintShutdown [("s1", ⟨true, true, true⟩), ("s2", ⟨true, false, false⟩)]).2.2 = 0 ∧
    tblGet (sigintShutdown [("s1", ⟨true, true, true⟩), ("s2", ⟨true, false, false⟩)]).1
      "s1" = none ∧
    tblGet (sigintShutdown [("s1", ⟨true, true, true⟩), ("s2", ⟨true, false, false⟩)]).1
      "s2" = none ∧
    (CloseEvent.transportClose "s1" true ∈
        (sigintShutdown [("s1", ⟨true, true, true⟩), ("s2", ⟨true, false, false⟩)]).2.1 ∧
      CloseEvent.serverClose "s1" true ∈
        (sigintShutdown [("s1", ⟨true, true, true⟩), ("s2", ⟨true, false, false⟩)]).2.1) ∧
    (CloseEvent.transportClose "s2" false ∈
        (sigintShutdown [("s1", ⟨true, true, true⟩), ("s2", ⟨true, false, false⟩)]).2.1 ∧
      CloseEvent.serverClose "s2" false ∈
        (sigintShutdown [("s1", ⟨true, true, true⟩), ("s2", ⟨true, false, false⟩)]).2.1) :=
  ⟨(sigint_tears_down_all_sessions
      [("s1", ⟨true, true, true⟩), ("s2", ⟨true, false, false⟩)]).1,
   (sigint_tears_down_all_sessions
      [("s1", ⟨true, true, true⟩), ("s2", ⟨true, false, false⟩)]).2.1 "s1",
   (sigint_tears_down_all_sessions
      [("s1", ⟨true, true, true⟩), ("s2", ⟨true, false, false⟩)]).2.1 "s2",
   (sigint_tears_down_all_sessions
      [("s1", ⟨true, true, true⟩), ("s2", ⟨true, false, false⟩)]).2.2 "s1"
      ⟨true, true, true⟩ (by decide),
   (sigint_tears_down_all_sessions
      [("s1", ⟨true, true, true⟩), ("s2", ⟨true, false, false⟩)]).2.2 "s2"
      ⟨true, false, false⟩ (by decide)⟩

/-- C6: within one tool-registry instance the browser is lazily created at
most once (later `getBrowser` calls return the same handle and launch
nothing) and shared; `fetchPageContent` closes the page it opened exactly
once whether the navigation body succeeds or throws, never closes the shared
browser, and leaves the browser handle set; the browser is closed exactly
once, by `server.onclose` at session teardown. -/
theorem browser_lifecycle (st : SessState) (nav : PageNav) (url : String) (b : Nat) :
    getBrowser ((getBrowser st).2.1) = ((getBrowser st).1, (getBrowser st).2.1, []) ∧
    (st.browserPromise = some b → getBrowser st = (b, st, [])) ∧
    (fetchPageContent nav st url).2.2.count
        (BrowserEvent.closePage (createAuthenticatedPage st).1) = 1 ∧
    (fetchPageContent nav st url).1 = nav url ∧
    (∀ b2, BrowserEvent.closeBrowser b2 ∉ (fetchPageContent nav st url).2.2) ∧
    (fetchPageContent nav st url).2.1.browserPromise = some (getBrowser st).1 ∧
    (st.browserPromise = some b →
      serverOnClose st = (st, [BrowserEvent.closeBrowser b])) := by
  refine ⟨?_, fun h => ?_, ?_, ?_, fun b2 => ?_, ?_, fun h => ?_⟩
  · cases h : st.browserPromise <;> simp [getBrowser, h]
  · simp [getBrowser, h]
  · cases h : st.browserPromise <;>
      simp [fetchPageContent, createAuthenticatedPage, getBrowser, h, List.count_cons]
  · cases h : st.browserPromise <;>
      simp [fetchPageContent, createAuthenticatedPage, getBrowser, h]
  · cases h : st.browserPromise <;>
      simp [fetchPageContent, createAuthenticatedPage, getBrowser, h]
  · cases h : st.browserPromise <;>
      simp [fetchPageContent, createAuthenticatedPage, getBrowser, h]
  · simp [serverOnClose, h]

theorem browser_lifecycle_witness :
    getBrowser ⟨some 5, 6⟩ = (5, ⟨some 5, 6⟩, []) ∧
    serverOnClose ⟨some 5, 6⟩ = (⟨some 5, 6⟩, [BrowserEvent.closeBrowser 5]) ∧
    (fetchPageContent (fun _ => .error "goto timeout") ⟨some 5, 6⟩ "u").2.2.count
      (BrowserEvent.closePage 6) = 1 :=
  ⟨(browser_lifecycle ⟨some 5, 6⟩ (fun _ => .error "goto timeout") "u" 5).2.1 rfl,
   (browser_lifecycle ⟨some 5, 6⟩ (fun _ => .error "goto timeout") "u" 5).2.2.2.2.2.2 rfl,
   (browser_lifecycle ⟨some 5, 6⟩ (fun _ => .error "goto timeout") "u" 5).2.2.1⟩

end CourseraMCP
